import Mathlib

/-!
Shallow embedding of `scripts/run-theme-check.js` from the
shoplab-pr-shopify-theme-check-reporter repository.

JavaScript strings are modelled as Lean `String` (a wrapper around
`List Char`); the JS string primitives used by the script
(`startsWith`, `endsWith`, `substring`, `.length`, `||` defaulting,
`decodeURIComponent`, template concatenation) are defined below on the
character-list level, so theorems can reason about them directly.
-/

namespace ThemeCheck

/-- JS `s.startsWith(p)` on the character level. -/
def jsStartsWith (s p : String) : Bool :=
  p.data.isPrefixOf s.data

/-- JS `s.endsWith(p)` on the character level. -/
def jsEndsWith (s p : String) : Bool :=
  p.data.isSuffixOf s.data

/-- JS `s.substring(n)`: drop the first `n` characters. -/
def jsDropChars (s : String) (n : Nat) : String :=
  String.mk (s.data.drop n)

/-- JS `s.length` (character count). -/
def jsLen (s : String) : Nat :=
  s.data.length

/-- JS `v || d` for an optional environment/string value: `undefined`
and the empty string are falsy and select the default `d`. -/
def jsOr (v : Option String) (d : String) : String :=
  match v with
  | some s => if s = "" then d else s
  | none => d

/-- Value of one hexadecimal digit character, if it is one. -/
def hexVal (c : Char) : Option Nat :=
  let n := c.toNat
  if 48 ≤ n ∧ n ≤ 57 then some (n - 48)
  else if 65 ≤ n ∧ n ≤ 70 then some (n - 55)
  else if 97 ≤ n ∧ n ≤ 102 then some (n - 87)
  else none

/-- Reads one percent-escaped byte (`%XY`) from the front of a
character list, returning the byte value and the rest. -/
def readByte : List Char → Option (Nat × List Char)
  | '%' :: h :: l :: rest =>
    match hexVal h, hexVal l with
    | some hi, some lo => some (16 * hi + lo, rest)
    | _, _ => none
  | _ => none

/-- Reads one percent-escaped UTF-8 continuation byte (`0x80`–`0xBF`),
returning its 6 payload bits. -/
def readCont (cs : List Char) : Option (Nat × List Char) :=
  match readByte cs with
  | some (b, rest) => if 0x80 ≤ b ∧ b ≤ 0xBF then some (b % 64, rest) else none
  | none => none

/-- Worker for `decodeURIComponent`: characters other than `%` pass
through unchanged; a `%` must begin a percent-escaped UTF-8 byte
sequence, which is decoded to its code point, and any malformed
sequence makes the whole decode fail (JS throws `URIError`). The fuel
argument is the length of the input, which bounds the number of steps
since every step consumes at least one character. -/
def decodeAux : Nat → List Char → Option (List Char)
  | _, [] => some []
  | 0, _ :: _ => none
  | fuel + 1, c :: cs =>
    if c = '%' then
      match readByte (c :: cs) with
      | none => none
      | some (b, rest) =>
        if b < 0x80 then
          (decodeAux fuel rest).map (fun t => Char.ofNat b :: t)
        else if 0xC2 ≤ b ∧ b ≤ 0xDF then
          match readCont rest with
          | some (b1, rest1) =>
            (decodeAux fuel rest1).map (fun t => Char.ofNat ((b - 0xC0) * 64 + b1) :: t)
          | none => none
        else if 0xE0 ≤ b ∧ b ≤ 0xEF then
          match readCont rest with
          | some (b1, rest1) =>
            match readCont rest1 with
            | some (b2, rest2) =>
              let cp := (b - 0xE0) * 4096 + b1 * 64 + b2
              if 0x800 ≤ cp ∧ (cp < 0xD800 ∨ 0xDFFF < cp) then
                (decodeAux fuel rest2).map (fun t => Char.ofNat cp :: t)
              else none
            | none => none
          | none => none
        else if 0xF0 ≤ b ∧ b ≤ 0xF4 then
          match readCont rest with
          | some (b1, rest1) =>
            match readCont rest1 with
            | some (b2, rest2) =>
              match readCont rest2 with
              | some (b3, rest3) =>
                let cp := (b - 0xF0) * 262144 + b1 * 4096 + b2 * 64 + b3
                if 0x10000 ≤ cp ∧ cp ≤ 0x10FFFF then
                  (decodeAux fuel rest3).map (fun t => Char.ofNat cp :: t)
                else none
              | none => none
            | none => none
          | none => none
        else none
    else
      (decodeAux fuel cs).map (fun t => c :: t)

/-- JS `decodeURIComponent`; `none` models a thrown `URIError`. -/
def decodeURIComponent (s : String) : Option String :=
  (decodeAux s.data.length s.data).map String.mk

/-- Source position of an offense (`offense.start`). -/
structure Start where
  line : Nat
  character : Nat
deriving DecidableEq

/-- One diagnostic record produced by the theme-check engine, with the
fields the script reads. `severity` is an arbitrary integer; the script
only distinguishes `0` (error) and `1` (warning). -/
structure Offense where
  uri : Option String
  start : Option Start
  severity : Int
  message : Option String
  check : Option String
deriving DecidableEq

/-- `offense.start?.line ?? 0`. -/
def startRowOf (o : Offense) : Nat :=
  match o.start with
  | some s => s.line
  | none => 0

/-- `offense.start?.character ?? 0`. -/
def startColOf (o : Offense) : Nat :=
  match o.start with
  | some s => s.character
  | none => 0

/-- The workspace path normalized to end with a trailing `/` as in
`workspacePath.endsWith('/') ? workspacePath : workspacePath + '/'`. -/
def baseWorkspacePath (workspacePath : String) : String :=
  if jsEndsWith workspacePath "/" = true then workspacePath else workspacePath ++ "/"

/-- `relativePath.startsWith('/') ? relativePath.substring(1) : relativePath`. -/
def stripLeadingSlash (s : String) : String :=
  if jsStartsWith s "/" = true then jsDropChars s 1 else s

/-- The blob link template from the script:
`${repoUrl}/blob/${commitSha}/${linkPath}#L${startRow}`. -/
def buildFileLink (repoUrl commitSha relativePath : String) (startRow : Nat) : String :=
  repoUrl ++ "/blob/" ++ commitSha ++ "/" ++ stripLeadingSlash relativePath ++ "#L" ++ toString startRow

/-- The path-resolution part of `formatOffenseBlock`: returns the pair
`(relativePath, fileLink)` computed by the script for one offense. -/
def resolveOffensePath (o : Offense) (workspacePath repoUrl commitSha : String) : String × String :=
  let offenseUri := jsOr o.uri "file:///unknown_path"
  let startRow := startRowOf o
  let base := baseWorkspacePath workspacePath
  if jsStartsWith offenseUri "file://" = true then
    match decodeURIComponent (jsDropChars offenseUri 7) with
    | some decodedPath =>
      if jsStartsWith decodedPath base = true then
        let relativePath := jsDropChars decodedPath (jsLen base)
        if repoUrl ≠ "" ∧ commitSha ≠ "" ∧ relativePath ≠ "unknown_path" ∧ 0 < startRow then
          (relativePath, buildFileLink repoUrl commitSha relativePath startRow)
        else
          (relativePath, "")
      else
        (decodedPath, "")
    | none => (offenseUri, "")
  else
    (offenseUri, "")

/-- The displayed path of one offense. -/
def relativePathOf (o : Offense) (workspacePath repoUrl commitSha : String) : String :=
  (resolveOffensePath o workspacePath repoUrl commitSha).1

/-- The clickable link of one offense; `""` when no link is produced. -/
def fileLinkOf (o : Offense) (workspacePath repoUrl commitSha : String) : String :=
  (resolveOffensePath o workspacePath repoUrl commitSha).2

/-- The location suffix `` :`row:col` `` of one formatted offense. -/
def locationSuffixOf (o : Offense) : String :=
  ":`" ++ toString (startRowOf o) ++ ":" ++ toString (startColOf o) ++ "`"

/-- The description line of one formatted offense. -/
def descriptionOf (o : Offense) : String :=
  jsOr o.message "No message" ++ " (" ++ jsOr o.check "No check code" ++ ")"

/-- `formatOffenseBlock` from the script: one Markdown list item. -/
def formatOffenseBlock (o : Offense) (workspacePath repoUrl commitSha : String) : String :=
  let rp := resolveOffensePath o workspacePath repoUrl commitSha
  let pathLink := if rp.2 ≠ "" then "[" ++ rp.1 ++ "](" ++ rp.2 ++ ")" else rp.1
  "- " ++ pathLink ++ locationSuffixOf o ++ "\n  " ++ descriptionOf o

/-- `allOffenses.filter(offense => offense.severity === 0)`. -/
def errorOffenses (l : List Offense) : List Offense :=
  l.filter (fun o => o.severity == 0)

/-- `allOffenses.filter(offense => offense.severity === 1)`. -/
def warningOffenses (l : List Offense) : List Offense :=
  l.filter (fun o => o.severity == 1)

/-- Outcome of `await themeCheckRun(themePath)`: either the call throws
with a message, or it returns a value whose `offenses` field is an
array (`some list`) or is missing/not an array (`none`). -/
inductive EngineResult where
  | raises (msg : String)
  | ok (offenses : Option (List Offense))
deriving DecidableEq

/-- The environment variables the script reads; `none` models an unset
variable. -/
structure Env where
  prNumber : Option String
  workspacePathVar : Option String
  githubOutput : Option String
  repoUrl : Option String
  commitSha : Option String
  runId : Option String
  failOnWarnings : Option String
  runnerTemp : Option String
deriving DecidableEq

/-- One run's external world: working directory, script directory
(`__dirname`), environment, filesystem behaviour (whether the directory
of `GITHUB_OUTPUT` exists, whether `writeFileSync` for the comment body
and `appendFileSync` to `GITHUB_OUTPUT` succeed), the shape of the
imported `themeCheckRun` binding (`typeof`), the engine outcome, and
`Date.now()`. -/
structure World where
  cwd : String
  scriptDir : String
  env : Env
  outputDirExists : Bool
  typeofThemeCheckRun : String
  engine : EngineResult
  writeOk : Bool
  appendOk : Bool
  now : Nat
deriving DecidableEq

/-- `process.env.WORKSPACE_PATH || themePath`. -/
def World.workspacePath (w : World) : String := jsOr w.env.workspacePathVar w.cwd

/-- `process.env.REPO_URL || ''`. -/
def World.repoUrlVal (w : World) : String := jsOr w.env.repoUrl ""

/-- `process.env.COMMIT_SHA || ''`. -/
def World.commitShaVal (w : World) : String := jsOr w.env.commitSha ""

/-- `process.env.RUN_ID || ''`. -/
def World.runIdVal (w : World) : String := jsOr w.env.runId ""

/-- `process.env.PR_NUMBER || 'N/A'`. -/
def World.prNumberVal (w : World) : String := jsOr w.env.prNumber "N/A"

/-- `process.env.FAIL_ON_WARNINGS === 'true'`. -/
def World.failOnWarningsVal (w : World) : Bool := w.env.failOnWarnings == some "true"

/-- The early validation
`!outputFilePath || !fs.existsSync(path.dirname(outputFilePath))`:
true when `GITHUB_OUTPUT` is set, non-empty and its directory exists. -/
def outputPathValid (w : World) : Bool :=
  match w.env.githubOutput with
  | none => false
  | some p => p != "" && w.outputDirExists

/-- `setOutput(name, value)`: appends `name=value` (with `%`, newline
and carriage return escaped) to `GITHUB_OUTPUT` when the variable is
set and the append succeeds; any failure is swallowed. The result is
the list of successfully appended `(name, value)` pairs. -/
def escChar (c : Char) : List Char :=
  if c = '%' then ['%', '2', '5']
  else if c = '\n' then ['%', '0', 'A']
  else if c = '\r' then ['%', '0', 'D']
  else [c]

/-- The escaping applied by `setOutput`:
`String(value).replace(/%/g,'%25').replace(/\n/g,'%0A').replace(/\r/g,'%0D')`. -/
def escapeOutput (s : String) : String :=
  String.mk (s.data.map escChar).flatten

/-- Model of one `setOutput` call: the `(name, escapedValue)` pairs it
successfully appends to the output file (empty when `GITHUB_OUTPUT` is
unset or the append throws — both are swallowed). -/
def setOutputModel (w : World) (name value : String) : List (String × String) :=
  match w.env.githubOutput with
  | none => []
  | some p => if p = "" then [] else if w.appendOk then [(name, escapeOutput value)] else []

/-- Result of the `try` block of `runCheck`: the summary line, report
body, the two counts, the pre-publish failure decision, and how many
times the engine was invoked. -/
structure TryOut where
  summaryLine : String
  reportBody : String
  errCount : Nat
  warnCount : Nat
  preFail : Bool
  invocations : Nat
deriving DecidableEq

/-- A single-quote character, used inside error-message literals. -/
def sq : String := String.mk [Char.ofNat 39]

/-- Message of the error thrown when `GITHUB_OUTPUT` is invalid. -/
def setupErrorMsg (w : World) : String :=
  "GITHUB_OUTPUT path invalid or directory does not exist: " ++
    (match w.env.githubOutput with | none => "undefined" | some p => p)

/-- Message of the error thrown when `themeCheckRun` is not a function. -/
def fnErrorMsg (w : World) : String :=
  "Failed to access themeCheckRun function correctly from " ++ sq ++
    "@shopify/theme-check-node" ++ sq ++ ". Expected function, got: " ++
    w.typeofThemeCheckRun

/-- Message of the error thrown when the engine result lacks an
array-valued `offenses` field. -/
def shapeErrorMsg : String :=
  "Theme check did not return the expected offenses array structure."

/-- Report body built in the `catch` branch of `runCheck`. -/
def scriptFailedBody (msg : String) : String :=
  "‚ö†Ô∏è **Theme Check Script Failed**\n```\n" ++ msg ++ "\n```"

/-- The `catch` branch outcome: counts stay at their initial `0`. -/
def failBlock (msg : String) (inv : Nat) : TryOut :=
  ⟨"Error: Failed to run theme check script.", scriptFailedBody msg, 0, 0, true, inv⟩

/-- `${totalErrorCount} error(s), ${totalWarningCount} warning(s) found.` -/
def successSummary (e w : Nat) : String :=
  toString e ++ " error(s), " ++ toString w ++ " warning(s) found."

/-- Report body assembly for a successful engine run. -/
def successReportBody (errs warns : List Offense) (ws repo sha : String) : String :=
  if errs.length = 0 ∧ warns.length = 0 then
    "‚úÖ (" ++ successSummary errs.length warns.length ++ ")"
  else
    let fe := if 0 < errs.length then
        String.intercalate "\n" (errs.map (fun o => formatOffenseBlock o ws repo sha))
      else ""
    let fw := if 0 < warns.length then
        String.intercalate "\n" (warns.map (fun o => formatOffenseBlock o ws repo sha))
      else ""
    let part1 := if fe ≠ "" then "### üö® Errors\n" ++ fe ++ "\n" else ""
    let sep := if fw ≠ "" ∧ fe ≠ "" then "\n---\n" else ""
    let part2 := if fw ≠ "" then "### ‚ö†Ô∏è Warnings\n" ++ fw else ""
    part1 ++ sep ++ part2

/-- The `try`/`catch` portion of `runCheck` (validation, engine call,
classification, body formatting, pre-publish failure decision). -/
def tryBlock (w : World) : TryOut :=
  if outputPathValid w = false then failBlock (setupErrorMsg w) 0
  else if w.typeofThemeCheckRun ≠ "function" then failBlock (fnErrorMsg w) 0
  else
    match w.engine with
    | .raises msg => failBlock msg 1
    | .ok none => failBlock shapeErrorMsg 1
    | .ok (some offs) =>
      let errs := errorOffenses offs
      let warns := warningOffenses offs
      let preFail :=
        if 0 < errs.length then true
        else if 0 < warns.length ∧ w.failOnWarningsVal = true then true
        else false
      ⟨successSummary errs.length warns.length,
       successReportBody errs warns w.workspacePath w.repoUrlVal w.commitShaVal,
       errs.length, warns.length, preFail, 1⟩

/-- Node `path.join` as used for the comment-body file name. -/
def pathJoin (a b : String) : String :=
  if a = "" then b else if jsEndsWith a "/" = true then a ++ b else a ++ "/" ++ b

/-- `path.join(process.env.RUNNER_TEMP || __dirname, 'comment-body-' +
Date.now() + '.md')`. -/
def bodyFileName (w : World) : String :=
  pathJoin (jsOr w.env.runnerTemp w.scriptDir) ("comment-body-" ++ toString w.now ++ ".md")

/-- `repoUrl && runId ? repoUrl + '/actions/runs/' + runId : ''`. -/
def actionRunUrlOf (w : World) : String :=
  if w.repoUrlVal ≠ "" ∧ w.runIdVal ≠ "" then
    w.repoUrlVal ++ "/actions/runs/" ++ w.runIdVal
  else ""

/-- The trailing run-details link, empty when not applicable. -/
def viewMoreLinkOf (w : World) : String :=
  if actionRunUrlOf w ≠ "" then
    "\n\n[View Full Action Run Details](" ++ actionRunUrlOf w ++ ")"
  else ""

/-- `## Theme Check Report for PR #...`. -/
def reportTitleOf (w : World) : String :=
  "## Theme Check Report for PR #" ++ w.prNumberVal

/-- Observable result of one run of the script: exit code, the
`(name, value)` pairs appended to `GITHUB_OUTPUT`, the number of
engine invocations, the assembled final comment body, the comment-body
file written (path and contents, when the write succeeded), and the
final values of the two counters. -/
structure RunResult where
  exitCode : Nat
  outputs : List (String × String)
  invocations : Nat
  finalCommentBody : String
  fileWritten : Option (String × String)
  errCount : Nat
  warnCount : Nat
deriving DecidableEq

/-- The final comment body
`${reportTitle}\n**${summaryLine}**\n\n${reportBody}${viewMoreLink}`. -/
def finalCommentBodyOf (w : World) : String :=
  reportTitleOf w ++ "\n**" ++ (tryBlock w).summaryLine ++ "**\n\n" ++
    (tryBlock w).reportBody ++ viewMoreLinkOf w

/-- The fallback body built when the comment-body file write fails. -/
def fallbackBodyOf (w : World) : String :=
  reportTitleOf w ++ "\n**" ++ (tryBlock w).summaryLine ++
    "**\n\n‚ö†Ô∏è Error: Could not write report file." ++ viewMoreLinkOf w

/-- The whole `runCheck` control flow after the `try`/`catch` block:
assemble the final comment body, publish (write the body file plus the
four outputs, or on a write failure the empty path and the fallback
body), and exit `1` when the run should fail, else `0`. -/
def runCheckModel (w : World) : RunResult :=
  let t := tryBlock w
  let bodyFile := bodyFileName w
  if w.writeOk then
    ⟨if t.preFail then 1 else 0,
     setOutputModel w "comment_body_file" bodyFile ++
       setOutputModel w "fallback_comment_body" "" ++
       setOutputModel w "error_count" (toString t.errCount) ++
       setOutputModel w "warning_count" (toString t.warnCount),
     t.invocations, finalCommentBodyOf w, some (bodyFile, finalCommentBodyOf w),
     t.errCount, t.warnCount⟩
  else
    ⟨1,
     setOutputModel w "comment_body_file" "" ++
       setOutputModel w "fallback_comment_body" (fallbackBodyOf w),
     t.invocations, finalCommentBodyOf w, none, t.errCount, t.warnCount⟩

/-- The relative-path derivation of `formatOffenseBlock` in isolation:
`some rel` exactly when the offense's (defaulted) URI is `file://`
scheme, percent-decodes successfully, and the decoded path starts with
the normalized workspace root; `rel` is the decoded path with that
matched prefix stripped. -/
def derivedRelativePath (o : Offense) (workspacePath : String) : Option String :=
  let offenseUri := jsOr o.uri "file:///unknown_path"
  let base := baseWorkspacePath workspacePath
  if jsStartsWith offenseUri "file://" = true then
    match decodeURIComponent (jsDropChars offenseUri 7) with
    | some decodedPath =>
      if jsStartsWith decodedPath base = true then
        some (jsDropChars decodedPath (jsLen base))
      else none
    | none => none
  else none

/-- A fatal setup or processing error: invalid `GITHUB_OUTPUT`, a
non-function `themeCheckRun` binding, an engine invocation that
raises, or an engine result without an array-valued `offenses`. -/
def fatalErrorOccurred (w : World) : Bool :=
  !outputPathValid w || (w.typeofThemeCheckRun != "function") ||
    (match w.engine with
     | .raises _ => true
     | .ok none => true
     | .ok (some _) => false)

/-- Transcribed from the spec's exit-code contract (not from the
code): a failing condition is errors found, warnings found with the
fail-on-warnings flag set, a fatal setup/processing error, or a
report-file write failure. -/
def specFailingCondition (w : World) : Bool :=
  decide (0 < (runCheckModel w).errCount) ||
    (decide (0 < (runCheckModel w).warnCount) && w.failOnWarningsVal) ||
    fatalErrorOccurred w || !w.writeOk

/-- The world with the `FAIL_ON_WARNINGS` variable replaced. -/
def withFailOnWarnings (w : World) (v : Option String) : World :=
  ⟨w.cwd, w.scriptDir,
   ⟨w.env.prNumber, w.env.workspacePathVar, w.env.githubOutput, w.env.repoUrl,
    w.env.commitSha, w.env.runId, v, w.env.runnerTemp⟩,
   w.outputDirExists, w.typeofThemeCheckRun, w.engine, w.writeOk, w.appendOk, w.now⟩

/-! ### Concrete example values (used by witnesses) -/

/-- Scenario B offense: severity 0, inside the workspace, line 12 col 4. -/
def oScenarioB : Offense :=
  ⟨some "file:///workspace/sections/header.liquid", some ⟨12, 4⟩, 0, some "msg", some "chk"⟩

/-- A warning offense (severity 1) inside the workspace. -/
def oWarn : Offense :=
  ⟨some "file:///workspace/sections/header.liquid", some ⟨12, 4⟩, 1, some "msg", some "chk"⟩

/-- An offense with an unrecognized severity. -/
def oInfo : Offense :=
  ⟨some "file:///workspace/sections/header.liquid", some ⟨12, 4⟩, 2, some "msg", some "chk"⟩

/-- An offense with no `start` field. -/
def oStartAbsent : Offense :=
  ⟨some "file:///workspace/a.liquid", none, 0, some "msg", some "chk"⟩

/-- An offense whose decoded path lies outside the workspace root. -/
def oOutside : Offense :=
  ⟨some "file:///etc/hosts", some ⟨3, 1⟩, 0, some "msg", some "chk"⟩

/-- A fully-populated example environment. -/
def envExample : Env :=
  ⟨some "7", some "/workspace", some "/out/output.txt", some "https://github.com/org/repo",
   some "abc123", some "99", none, some "/tmp"⟩

/-- A world around `envExample` with a given engine outcome and output
write behaviour. -/
def worldExample (e : EngineResult) (writeOk : Bool) : World :=
  ⟨"/workspace", "/action", envExample, true, "function", e, writeOk, true, 5⟩

/-- A run in which the engine raises. -/
def wRaises : World := worldExample (.raises "boom") true

/-- A successful run with one error, one warning, one info offense. -/
def wSuccess : World := worldExample (.ok (some [oScenarioB, oWarn, oInfo])) true

/-- The same run but the comment-body file write fails. -/
def wWriteFail : World := worldExample (.ok (some [oScenarioB, oWarn, oInfo])) false

/-- A run producing a single warning. -/
def wWarnOnly : World := worldExample (.ok (some [oWarn])) true

/-- A run with `GITHUB_OUTPUT` unset. -/
def wNoOutput : World :=
  ⟨"/workspace", "/action",
   ⟨some "7", some "/workspace", none, some "https://github.com/org/repo",
    some "abc123", some "99", none, some "/tmp"⟩,
   true, "function", .ok (some []), true, true, 5⟩

/-! ### Helper lemmas about the string model -/

theorem strExt {s t : String} (h : s.data = t.data) : s = t := by
  cases s; cases t; exact congrArg String.mk h

theorem strDataAppend (s t : String) : (s ++ t).data = s.data ++ t.data := rfl

theorem strEmptyIff {s : String} : s = "" ↔ s.data = [] := by
  constructor
  · intro h; rw [h]
  · intro h; exact strExt (by rw [h])

theorem appendNeEmptyLeft (s t : String) (h : s ≠ "") : s ++ t ≠ "" := by
  intro h0
  rw [strEmptyIff, strDataAppend, List.append_eq_nil] at h0
  exact h (strEmptyIff.mpr h0.1)

theorem appendNeEmptyRight (s t : String) (h : t ≠ "") : s ++ t ≠ "" := by
  intro h0
  rw [strEmptyIff, strDataAppend, List.append_eq_nil] at h0
  exact h (strEmptyIff.mpr h0.2)

theorem isPre_exists : ∀ {l₁ l₂ : List Char}, l₁.isPrefixOf l₂ = true → ∃ t, l₂ = l₁ ++ t
  | [], l₂, _ => ⟨l₂, rfl⟩
  | _ :: _, [], h => by simp [List.isPrefixOf] at h
  | a :: as, b :: bs, h => by
    rw [List.isPrefixOf, Bool.and_eq_true, beq_iff_eq] at h
    obtain ⟨t, ht⟩ := isPre_exists h.2
    exact ⟨t, by rw [ht, h.1]; rfl⟩

/-- Stripping a matched leading piece and re-appending it restores the
original string. -/
theorem append_jsDropChars {s p : String} (h : jsStartsWith s p = true) :
    p ++ jsDropChars s (jsLen p) = s := by
  obtain ⟨t, ht⟩ := isPre_exists h
  apply strExt
  rw [strDataAppend]
  show p.data ++ (s.data.drop p.data.length) = s.data
  rw [ht, List.drop_left]

theorem jsStartsWith_ne_empty {s p : String} (hp : p ≠ "") (h : jsStartsWith s p = true) :
    s ≠ "" := by
  intro h0
  obtain ⟨t, ht⟩ := isPre_exists h
  rw [strEmptyIff] at h0
  rw [h0] at ht
  exact hp (strEmptyIff.mpr (List.append_eq_nil.mp ht.symm).1)

theorem escChar_ne_nil (c : Char) : escChar c ≠ [] := by
  unfold escChar
  split
  · simp
  · split
    · simp
    · split <;> simp

theorem escapeOutput_ne_empty {s : String} (h : s ≠ "") : escapeOutput s ≠ "" := by
  intro h0
  unfold escapeOutput at h0
  have hX : (s.data.map escChar).flatten = [] := by
    have h1 := congrArg String.data h0
    simpa using h1
  cases hd : s.data with
  | nil => exact h (strEmptyIff.mpr hd)
  | cons c cs =>
    rw [hd] at hX
    simp only [List.map, List.flatten] at hX
    exact escChar_ne_nil c (List.append_eq_nil.mp hX).1

theorem pathJoin_ne_empty (a b : String) (hb : b ≠ "") : pathJoin a b ≠ "" := by
  unfold pathJoin
  split
  · exact hb
  · split
    · exact appendNeEmptyRight _ _ hb
    · exact appendNeEmptyRight _ _ hb

theorem bodyFileName_ne_empty (w : World) : bodyFileName w ≠ "" := by
  unfold bodyFileName
  exact pathJoin_ne_empty _ _ (appendNeEmptyRight _ _ (by decide))

theorem buildFileLink_ne_empty (repo sha rel : String) (r : Nat) :
    buildFileLink repo sha rel r ≠ "" := by
  unfold buildFileLink
  exact appendNeEmptyLeft _ _ (appendNeEmptyRight _ _ (by decide))

theorem ite_pair {c : Prop} [Decidable c] {α β : Type} (a : α) (b b' : β) :
    (if c then (a, b) else (a, b')) = (a, if c then b else b') := by
  split <;> rfl

/-! ### Structure lemmas about the path resolver -/

theorem jsOr_some_of_scheme {u d : String} (h : jsStartsWith u "file://" = true) :
    jsOr (some u) d = u := by
  show (if u = "" then d else u) = u
  split
  · next h0 => rw [h0] at h; exact absurd h (by decide)
  · rfl

/-- Unfolding of `resolveOffensePath` once the URI is known to be a
decodable `file://` URI. -/
theorem resolveOffensePath_decoded (o : Offense) (ws repo sha u d : String)
    (hu : jsOr o.uri "file:///unknown_path" = u)
    (hs : jsStartsWith u "file://" = true)
    (hd : decodeURIComponent (jsDropChars u 7) = some d) :
    resolveOffensePath o ws repo sha =
      (if jsStartsWith d (baseWorkspacePath ws) = true then
        (jsDropChars d (jsLen (baseWorkspacePath ws)),
         if repo ≠ "" ∧ sha ≠ "" ∧ jsDropChars d (jsLen (baseWorkspacePath ws)) ≠ "unknown_path" ∧
             0 < startRowOf o then
           buildFileLink repo sha (jsDropChars d (jsLen (baseWorkspacePath ws))) (startRowOf o)
         else "")
      else (d, "")) := by
  unfold resolveOffensePath
  dsimp only
  rw [hu, if_pos hs, hd]
  dsimp only
  split
  · exact ite_pair _ _ _
  · rfl

/-- Case analysis connecting `resolveOffensePath` with the isolated
relative-path derivation. -/
theorem resolve_master (o : Offense) (ws repo sha : String) :
    (∃ r, derivedRelativePath o ws = some r ∧
      resolveOffensePath o ws repo sha =
        (r, if repo ≠ "" ∧ sha ≠ "" ∧ r ≠ "unknown_path" ∧ 0 < startRowOf o then
              buildFileLink repo sha r (startRowOf o)
            else "")) ∨
    (derivedRelativePath o ws = none ∧ (resolveOffensePath o ws repo sha).2 = "") := by
  by_cases h1 : jsStartsWith (jsOr o.uri "file:///unknown_path") "file://" = true
  · cases hd : decodeURIComponent (jsDropChars (jsOr o.uri "file:///unknown_path") 7) with
    | none =>
      right
      constructor
      · unfold derivedRelativePath
        dsimp only
        rw [if_pos h1, hd]
      · unfold resolveOffensePath
        dsimp only
        rw [if_pos h1, hd]
    | some d =>
      by_cases h2 : jsStartsWith d (baseWorkspacePath ws) = true
      · left
        refine ⟨jsDropChars d (jsLen (baseWorkspacePath ws)), ?_, ?_⟩
        · unfold derivedRelativePath
          dsimp only
          rw [if_pos h1, hd]
          dsimp only
          rw [if_pos h2]
        · rw [resolveOffensePath_decoded o ws repo sha _ d rfl h1 hd, if_pos h2]
      · right
        constructor
        · unfold derivedRelativePath
          dsimp only
          rw [if_pos h1, hd]
          dsimp only
          rw [if_neg h2]
        · rw [resolveOffensePath_decoded o ws repo sha _ d rfl h1 hd, if_neg h2]
  · right
    constructor
    · unfold derivedRelativePath
      dsimp only
      rw [if_neg h1]
    · unfold resolveOffensePath
      dsimp only
      rw [if_neg h1]

/-- An offense whose starting row is `0` never gets a link. -/
theorem fileLink_empty_of_no_row (o : Offense) (ws repo sha : String)
    (h : startRowOf o = 0) : fileLinkOf o ws repo sha = "" := by
  unfold fileLinkOf
  rcases resolve_master o ws repo sha with ⟨r, _, hres⟩ | ⟨_, hres⟩
  · rw [hres]
    dsimp only
    rw [if_neg (by intro hc; rw [h] at hc; exact absurd hc.2.2.2 (by omega))]
  · exact hres

/-- When no link was produced, the rendered line shows the bare path. -/
theorem formatOffenseBlock_no_link (o : Offense) (ws repo sha : String)
    (h : fileLinkOf o ws repo sha = "") :
    formatOffenseBlock o ws repo sha =
      "- " ++ relativePathOf o ws repo sha ++ locationSuffixOf o ++ "\n  " ++ descriptionOf o := by
  unfold formatOffenseBlock
  dsimp only
  unfold fileLinkOf at h
  rw [h, if_neg (by intro hc; exact hc rfl)]
  rfl

/-! ### Claims about the formatter -/

/-- Claim C3: a clickable link is produced if and only if the
repository URL is non-empty, the commit identifier is non-empty, a
workspace-relative path other than the sentinel was derived, and the
offense's starting line is positive; when produced, the link is the
repository URL, `/blob/`, the commit, `/`, the relative path with any
leading separator stripped, and `#L` plus the starting line. -/
theorem claim_C3 (o : Offense) (ws repo sha : String) :
    (fileLinkOf o ws repo sha ≠ "" ↔
      (repo ≠ "" ∧ sha ≠ "" ∧
        (∃ r, derivedRelativePath o ws = some r ∧ r ≠ "unknown_path") ∧
        0 < startRowOf o))
    ∧ (∀ r, derivedRelativePath o ws = some r → repo ≠ "" → sha ≠ "" →
        r ≠ "unknown_path" → 0 < startRowOf o →
        fileLinkOf o ws repo sha =
          repo ++ "/blob/" ++ sha ++ "/" ++ stripLeadingSlash r ++ "#L" ++
            toString (startRowOf o)) := by
  rcases resolve_master o ws repo sha with ⟨r, hder, hres⟩ | ⟨hder, hres⟩
  · have hfl : fileLinkOf o ws repo sha =
        (if repo ≠ "" ∧ sha ≠ "" ∧ r ≠ "unknown_path" ∧ 0 < startRowOf o then
          buildFileLink repo sha r (startRowOf o)
        else "") := by
      unfold fileLinkOf
      rw [hres]
    constructor
    · constructor
      · intro hne
        rw [hfl] at hne
        by_cases hc : repo ≠ "" ∧ sha ≠ "" ∧ r ≠ "unknown_path" ∧ 0 < startRowOf o
        · exact ⟨hc.1, hc.2.1, ⟨r, hder, hc.2.2.1⟩, hc.2.2.2⟩
        · rw [if_neg hc] at hne
          exact absurd rfl hne
      · rintro ⟨h1, h2, ⟨r', hr', h3⟩, h4⟩
        rw [hder] at hr'
        injection hr' with hrr
        rw [hfl, if_pos ⟨h1, h2, hrr ▸ h3, h4⟩]
        exact buildFileLink_ne_empty repo sha r (startRowOf o)
    · intro r' hr' h1 h2 h3 h4
      rw [hder] at hr'
      injection hr' with hrr
      rw [hfl, if_pos ⟨h1, h2, hrr ▸ h3, h4⟩, hrr]
      rfl
  · have hfl : fileLinkOf o ws repo sha = "" := hres
    constructor
    · constructor
      · intro hne
        exact absurd hfl hne
      · rintro ⟨_, _, ⟨r', hr', _⟩, _⟩
        rw [hder] at hr'
        exact Option.noConfusion hr'
    · intro r' hr' _ _ _ _
      rw [hder] at hr'
      exact Option.noConfusion hr'

/-- Witness for C3: Scenario B produces exactly the expected link. -/
theorem claim_C3_witness :
    fileLinkOf oScenarioB "/workspace" "https://github.com/org/repo" "abc123" =
      "https://github.com/org/repo/blob/abc123/sections/header.liquid#L12" := by
  have h := (claim_C3 oScenarioB "/workspace" "https://github.com/org/repo" "abc123").2
    "sections/header.liquid" (by decide) (by decide) (by decide) (by decide) (by decide)
  rw [h]
  decide

/-- Claim C7: an offense with `start` absent renders location `0:0`
and never produces a link, whatever the other link inputs are. -/
theorem claim_C7 (o : Offense) (ws repo sha : String) (h : o.start = none) :
    locationSuffixOf o = ":`0:0`"
    ∧ fileLinkOf o ws repo sha = ""
    ∧ formatOffenseBlock o ws repo sha =
        "- " ++ relativePathOf o ws repo sha ++ ":`0:0`" ++ "\n  " ++ descriptionOf o := by
  have hrow : startRowOf o = 0 := by unfold startRowOf; rw [h]
  have hcol : startColOf o = 0 := by unfold startColOf; rw [h]
  have hloc : locationSuffixOf o = ":`0:0`" := by
    unfold locationSuffixOf
    rw [hrow, hcol]
    decide
  have hlink := fileLink_empty_of_no_row o ws repo sha hrow
  refine ⟨hloc, hlink, ?_⟩
  rw [formatOffenseBlock_no_link o ws repo sha hlink, hloc]

/-- Witness for C7 at a concrete offense with full link inputs. -/
theorem claim_C7_witness :
    locationSuffixOf oStartAbsent = ":`0:0`"
    ∧ fileLinkOf oStartAbsent "/workspace" "https://github.com/org/repo" "abc123" = ""
    ∧ formatOffenseBlock oStartAbsent "/workspace" "https://github.com/org/repo" "abc123" =
        "- " ++ relativePathOf oStartAbsent "/workspace" "https://github.com/org/repo" "abc123" ++
          ":`0:0`" ++ "\n  " ++ descriptionOf oStartAbsent :=
  claim_C7 oStartAbsent "/workspace" "https://github.com/org/repo" "abc123" rfl

/-- Claim C8: a decodable `file://` URI whose decoded path does not
start with the normalized workspace root is displayed as the full
decoded path and never produces a link. -/
theorem claim_C8 (o : Offense) (ws repo sha u d : String)
    (hu : o.uri = some u) (hs : jsStartsWith u "file://" = true)
    (hd : decodeURIComponent (jsDropChars u 7) = some d)
    (hb : jsStartsWith d (baseWorkspacePath ws) = false) :
    relativePathOf o ws repo sha = d
    ∧ fileLinkOf o ws repo sha = ""
    ∧ formatOffenseBlock o ws repo sha =
        "- " ++ d ++ locationSuffixOf o ++ "\n  " ++ descriptionOf o := by
  have hju : jsOr o.uri "file:///unknown_path" = u := by
    rw [hu]
    exact jsOr_some_of_scheme hs
  have hnb : ¬ jsStartsWith d (baseWorkspacePath ws) = true := by
    rw [hb]
    exact Bool.false_ne_true
  have hres := resolveOffensePath_decoded o ws repo sha u d hju hs hd
  rw [if_neg hnb] at hres
  have hrel : relativePathOf o ws repo sha = d := by
    unfold relativePathOf
    rw [hres]
  have hlink : fileLinkOf o ws repo sha = "" := by
    unfold fileLinkOf
    rw [hres]
  refine ⟨hrel, hlink, ?_⟩
  rw [formatOffenseBlock_no_link o ws repo sha hlink, hrel]

/-- Witness for C8 at a concrete offense outside the workspace with
all other link inputs present. -/
theorem claim_C8_witness :
    relativePathOf oOutside "/workspace" "https://github.com/org/repo" "abc123" = "/etc/hosts"
    ∧ fileLinkOf oOutside "/workspace" "https://github.com/org/repo" "abc123" = ""
    ∧ formatOffenseBlock oOutside "/workspace" "https://github.com/org/repo" "abc123" =
        "- " ++ "/etc/hosts" ++ locationSuffixOf oOutside ++ "\n  " ++ descriptionOf oOutside :=
  claim_C8 oOutside "/workspace" "https://github.com/org/repo" "abc123" "file:///etc/hosts"
    "/etc/hosts" rfl (by decide) (by decide) (by decide)

/-- Claim C9: for a decodable `file://` URI whose decoded path starts
with the normalized workspace root, re-joining the normalized root to
the computed relative path reconstructs the decoded path exactly. -/
theorem claim_C9 (o : Offense) (ws repo sha u d : String)
    (hu : o.uri = some u) (hs : jsStartsWith u "file://" = true)
    (hd : decodeURIComponent (jsDropChars u 7) = some d)
    (hb : jsStartsWith d (baseWorkspacePath ws) = true) :
    baseWorkspacePath ws ++ relativePathOf o ws repo sha = d := by
  have hju : jsOr o.uri "file:///unknown_path" = u := by
    rw [hu]
    exact jsOr_some_of_scheme hs
  unfold relativePathOf
  rw [resolveOffensePath_decoded o ws repo sha u d hju hs hd, if_pos hb]
  exact append_jsDropChars hb

/-- Witness for C9 at the Scenario B offense. -/
theorem claim_C9_witness :
    baseWorkspacePath "/workspace" ++
      relativePathOf oScenarioB "/workspace" "https://github.com/org/repo" "abc123" =
      "/workspace/sections/header.liquid" :=
  claim_C9 oScenarioB "/workspace" "https://github.com/org/repo" "abc123"
    "file:///workspace/sections/header.liquid" "/workspace/sections/header.liquid"
    rfl (by decide) (by decide) (by decide)

/-! ### Structure lemmas about the run model -/

theorem tryBlock_invalid (w : World) (hv : outputPathValid w = false) :
    tryBlock w = failBlock (setupErrorMsg w) 0 := by
  unfold tryBlock
  rw [if_pos hv]

theorem tryBlock_badfn (w : World) (hv : outputPathValid w = true)
    (hf : w.typeofThemeCheckRun ≠ "function") :
    tryBlock w = failBlock (fnErrorMsg w) 0 := by
  unfold tryBlock
  rw [if_neg (by rw [hv]; exact fun hc => Bool.noConfusion hc), if_pos hf]

theorem tryBlock_raises (w : World) (msg : String) (hv : outputPathValid w = true)
    (hf : w.typeofThemeCheckRun = "function") (he : w.engine = .raises msg) :
    tryBlock w = failBlock msg 1 := by
  unfold tryBlock
  rw [if_neg (by rw [hv]; exact fun hc => Bool.noConfusion hc), if_neg (by rw [hf]; exact fun hc => hc rfl), he]

theorem tryBlock_shape (w : World) (hv : outputPathValid w = true)
    (hf : w.typeofThemeCheckRun = "function") (he : w.engine = .ok none) :
    tryBlock w = failBlock shapeErrorMsg 1 := by
  unfold tryBlock
  rw [if_neg (by rw [hv]; exact fun hc => Bool.noConfusion hc), if_neg (by rw [hf]; exact fun hc => hc rfl), he]

theorem tryBlock_success (w : World) (offs : List Offense) (hv : outputPathValid w = true)
    (hf : w.typeofThemeCheckRun = "function") (he : w.engine = .ok (some offs)) :
    tryBlock w =
      ⟨successSummary (errorOffenses offs).length (warningOffenses offs).length,
       successReportBody (errorOffenses offs) (warningOffenses offs)
         w.workspacePath w.repoUrlVal w.commitShaVal,
       (errorOffenses offs).length, (warningOffenses offs).length,
       (if 0 < (errorOffenses offs).length then true
        else if 0 < (warningOffenses offs).length ∧ w.failOnWarningsVal = true then true
        else false),
       1⟩ := by
  unfold tryBlock
  rw [if_neg (by rw [hv]; exact fun hc => Bool.noConfusion hc), if_neg (by rw [hf]; exact fun hc => hc rfl), he]

theorem runCheckModel_writeOk (w : World) (hw : w.writeOk = true) :
    runCheckModel w =
      ⟨if (tryBlock w).preFail then 1 else 0,
       setOutputModel w "comment_body_file" (bodyFileName w) ++
         setOutputModel w "fallback_comment_body" "" ++
         setOutputModel w "error_count" (toString (tryBlock w).errCount) ++
         setOutputModel w "warning_count" (toString (tryBlock w).warnCount),
       (tryBlock w).invocations, finalCommentBodyOf w,
       some (bodyFileName w, finalCommentBodyOf w),
       (tryBlock w).errCount, (tryBlock w).warnCount⟩ := by
  unfold runCheckModel
  dsimp only
  rw [hw, if_pos rfl]

theorem runCheckModel_writeFail (w : World) (hw : w.writeOk = false) :
    runCheckModel w =
      ⟨1,
       setOutputModel w "comment_body_file" "" ++
         setOutputModel w "fallback_comment_body" (fallbackBodyOf w),
       (tryBlock w).invocations, finalCommentBodyOf w, none,
       (tryBlock w).errCount, (tryBlock w).warnCount⟩ := by
  unfold runCheckModel
  dsimp only
  rw [hw, if_neg (by exact fun hc => Bool.false_ne_true hc)]

theorem setOutputModel_app (w : World) (p : String) (hg : w.env.githubOutput = some p)
    (hp : p ≠ "") (ha : w.appendOk = true) (n v : String) :
    setOutputModel w n v = [(n, escapeOutput v)] := by
  unfold setOutputModel
  rw [hg]
  dsimp only
  rw [if_neg hp, ha, if_pos rfl]

theorem setOutputModel_unset (w : World) (hg : w.env.githubOutput = none) (n v : String) :
    setOutputModel w n v = [] := by
  unfold setOutputModel
  rw [hg]

theorem setOutputModel_noappend (w : World) (p : String) (hg : w.env.githubOutput = some p)
    (ha : w.appendOk = false) (n v : String) :
    setOutputModel w n v = [] := by
  unfold setOutputModel
  rw [hg]
  dsimp only
  split
  · rfl
  · rw [ha, if_neg (by exact fun hc => Bool.false_ne_true hc)]

theorem setOutputModel_name {w : World} {n v : String} {x : String × String}
    (hx : x ∈ setOutputModel w n v) : x.1 = n := by
  unfold setOutputModel at hx
  split at hx
  · exact absurd hx (List.not_mem_nil x)
  · split at hx
    · exact absurd hx (List.not_mem_nil x)
    · split at hx
      · rw [List.mem_singleton] at hx
        rw [hx]
      · exact absurd hx (List.not_mem_nil x)

/-! ### Claims about classification and the run model -/

/-- Claim C1: the classifier puts exactly the severity-0 offenses into
the errors subsequence and exactly the severity-1 offenses into the
warnings subsequence, preserving original relative order; the two are
disjoint, other severities appear in neither, and the reported counts
are the lengths of the two subsequences. -/
theorem claim_C1 (w : World) (offs : List Offense)
    (hv : outputPathValid w = true) (hf : w.typeofThemeCheckRun = "function")
    (he : w.engine = .ok (some offs)) :
    List.Sublist (errorOffenses offs) offs
    ∧ List.Sublist (warningOffenses offs) offs
    ∧ (∀ o, o ∈ errorOffenses offs ↔ o ∈ offs ∧ o.severity = 0)
    ∧ (∀ o, o ∈ warningOffenses offs ↔ o ∈ offs ∧ o.severity = 1)
    ∧ (∀ o, ¬(o ∈ errorOffenses offs ∧ o ∈ warningOffenses offs))
    ∧ (∀ o, o.severity ≠ 0 → o.severity ≠ 1 →
        o ∉ errorOffenses offs ∧ o ∉ warningOffenses offs)
    ∧ (runCheckModel w).errCount = (errorOffenses offs).length
    ∧ (runCheckModel w).warnCount = (warningOffenses offs).length := by
  have hmemE : ∀ o, o ∈ errorOffenses offs ↔ o ∈ offs ∧ o.severity = 0 := by
    intro o
    unfold errorOffenses
    rw [List.mem_filter, beq_iff_eq]
  have hmemW : ∀ o, o ∈ warningOffenses offs ↔ o ∈ offs ∧ o.severity = 1 := by
    intro o
    unfold warningOffenses
    rw [List.mem_filter, beq_iff_eq]
  have hcounts : (runCheckModel w).errCount = (errorOffenses offs).length ∧
      (runCheckModel w).warnCount = (warningOffenses offs).length := by
    cases hw : w.writeOk with
    | true =>
      rw [runCheckModel_writeOk w hw, tryBlock_success w offs hv hf he]
      exact ⟨rfl, rfl⟩
    | false =>
      rw [runCheckModel_writeFail w hw, tryBlock_success w offs hv hf he]
      exact ⟨rfl, rfl⟩
  refine ⟨List.filter_sublist offs, List.filter_sublist offs, hmemE, hmemW, ?_, ?_,
    hcounts.1, hcounts.2⟩
  · intro o ⟨h1, h2⟩
    have e0 := ((hmemE o).mp h1).2
    have e1 := ((hmemW o).mp h2).2
    rw [e0] at e1
    exact absurd e1 (by decide)
  · intro o h0 h1
    constructor
    · intro hmem
      exact h0 ((hmemE o).mp hmem).2
    · intro hmem
      exact h1 ((hmemW o).mp hmem).2

/-- Witness for C1 at a run containing an error, a warning and an
unrecognized-severity offense. -/
theorem claim_C1_witness :
    List.Sublist (errorOffenses [oScenarioB, oWarn, oInfo]) [oScenarioB, oWarn, oInfo]
    ∧ List.Sublist (warningOffenses [oScenarioB, oWarn, oInfo]) [oScenarioB, oWarn, oInfo]
    ∧ (∀ o, o ∈ errorOffenses [oScenarioB, oWarn, oInfo] ↔
        o ∈ [oScenarioB, oWarn, oInfo] ∧ o.severity = 0)
    ∧ (∀ o, o ∈ warningOffenses [oScenarioB, oWarn, oInfo] ↔
        o ∈ [oScenarioB, oWarn, oInfo] ∧ o.severity = 1)
    ∧ (∀ o, ¬(o ∈ errorOffenses [oScenarioB, oWarn, oInfo] ∧
        o ∈ warningOffenses [oScenarioB, oWarn, oInfo]))
    ∧ (∀ o, o.severity ≠ 0 → o.severity ≠ 1 →
        o ∉ errorOffenses [oScenarioB, oWarn, oInfo] ∧
        o ∉ warningOffenses [oScenarioB, oWarn, oInfo])
    ∧ (runCheckModel wSuccess).errCount = (errorOffenses [oScenarioB, oWarn, oInfo]).length
    ∧ (runCheckModel wSuccess).warnCount = (warningOffenses [oScenarioB, oWarn, oInfo]).length :=
  claim_C1 wSuccess [oScenarioB, oWarn, oInfo] (by decide) rfl rfl

/-- Claim C4: when the comment-body file write fails in a run whose
output file is usable, the run still emits exactly an empty
`comment_body_file` output and a non-empty `fallback_comment_body`
made of the title, summary, could-not-write notice and trailing link,
and the run exits 1. -/
theorem claim_C4 (w : World) (p : String)
    (hg : w.env.githubOutput = some p) (hp : p ≠ "") (ha : w.appendOk = true)
    (hw : w.writeOk = false) :
    (runCheckModel w).outputs =
      [("comment_body_file", ""), ("fallback_comment_body", escapeOutput (fallbackBodyOf w))]
    ∧ escapeOutput (fallbackBodyOf w) ≠ ""
    ∧ fallbackBodyOf w =
        reportTitleOf w ++ "\n**" ++ (tryBlock w).summaryLine ++
          "**\n\n‚ö†Ô∏è Error: Could not write report file." ++ viewMoreLinkOf w
    ∧ (runCheckModel w).exitCode = 1 := by
  have htitle : reportTitleOf w ≠ "" := by
    unfold reportTitleOf
    exact appendNeEmptyLeft _ _ (by decide)
  have hfb : fallbackBodyOf w ≠ "" := by
    unfold fallbackBodyOf
    exact appendNeEmptyLeft _ _ (appendNeEmptyLeft _ _ (appendNeEmptyLeft _ _
      (appendNeEmptyLeft _ _ htitle)))
  refine ⟨?_, escapeOutput_ne_empty hfb, rfl, ?_⟩
  · rw [runCheckModel_writeFail w hw]
    dsimp only
    rw [setOutputModel_app w p hg hp ha, setOutputModel_app w p hg hp ha]
    rfl
  · rw [runCheckModel_writeFail w hw]

/-- Witness for C4 at a concrete run whose file write fails. -/
theorem claim_C4_witness :
    (runCheckModel wWriteFail).outputs =
      [("comment_body_file", ""),
       ("fallback_comment_body", escapeOutput (fallbackBodyOf wWriteFail))]
    ∧ escapeOutput (fallbackBodyOf wWriteFail) ≠ ""
    ∧ fallbackBodyOf wWriteFail =
        reportTitleOf wWriteFail ++ "\n**" ++ (tryBlock wWriteFail).summaryLine ++
          "**\n\n‚ö†Ô∏è Error: Could not write report file." ++ viewMoreLinkOf wWriteFail
    ∧ (runCheckModel wWriteFail).exitCode = 1 :=
  claim_C4 wWriteFail "/out/output.txt" rfl (by decide) rfl rfl

/-- Claim C5: an engine invocation that raises, or a result without an
array-valued `offenses`, is caught after exactly one invocation,
turned into a Script Failed report embedding the error message, and
published normally: counts 0, a non-empty `comment_body_file`, exit 1. -/
theorem claim_C5 (w : World) (p msg : String)
    (hg : w.env.githubOutput = some p) (hp : p ≠ "")
    (hv : outputPathValid w = true) (hf : w.typeofThemeCheckRun = "function")
    (ha : w.appendOk = true) (hw : w.writeOk = true)
    (he : w.engine = .raises msg ∨ (w.engine = .ok none ∧ msg = shapeErrorMsg)) :
    (runCheckModel w).invocations = 1
    ∧ (runCheckModel w).errCount = 0
    ∧ (runCheckModel w).warnCount = 0
    ∧ (runCheckModel w).outputs =
        [("comment_body_file", escapeOutput (bodyFileName w)),
         ("fallback_comment_body", ""),
         ("error_count", "0"), ("warning_count", "0")]
    ∧ escapeOutput (bodyFileName w) ≠ ""
    ∧ (runCheckModel w).fileWritten = some (bodyFileName w, finalCommentBodyOf w)
    ∧ (tryBlock w).reportBody =
        "‚ö†Ô∏è **Theme Check Script Failed**\n```\n" ++ msg ++ "\n```"
    ∧ (runCheckModel w).exitCode = 1 := by
  have ht : tryBlock w = failBlock msg 1 := by
    rcases he with he | ⟨he, hm⟩
    · exact tryBlock_raises w msg hv hf he
    · rw [hm]
      exact tryBlock_shape w hv hf he
  rw [runCheckModel_writeOk w hw, ht]
  refine ⟨rfl, rfl, rfl, ?_, escapeOutput_ne_empty (bodyFileName_ne_empty w), rfl, rfl, rfl⟩
  dsimp only
  simp only [setOutputModel_app w p hg hp ha]
  have hc : (failBlock msg 1).errCount = 0 := rfl
  have hwc : (failBlock msg 1).warnCount = 0 := rfl
  rw [hc, hwc]
  have h0 : escapeOutput "" = "" := rfl
  have h1 : escapeOutput (toString (0 : Nat)) = "0" := rfl
  rw [h0, h1]
  rfl

/-- Witness for C5 at a run whose engine raises `boom`. -/
theorem claim_C5_witness :
    (runCheckModel wRaises).invocations = 1
    ∧ (runCheckModel wRaises).errCount = 0
    ∧ (runCheckModel wRaises).warnCount = 0
    ∧ (runCheckModel wRaises).outputs =
        [("comment_body_file", escapeOutput (bodyFileName wRaises)),
         ("fallback_comment_body", ""),
         ("error_count", "0"), ("warning_count", "0")]
    ∧ escapeOutput (bodyFileName wRaises) ≠ ""
    ∧ (runCheckModel wRaises).fileWritten =
        some (bodyFileName wRaises, finalCommentBodyOf wRaises)
    ∧ (tryBlock wRaises).reportBody =
        "‚ö†Ô∏è **Theme Check Script Failed**\n```\n" ++ "boom" ++ "\n```"
    ∧ (runCheckModel wRaises).exitCode = 1 :=
  claim_C5 wRaises "/out/output.txt" "boom" rfl (by decide) (by decide) rfl rfl rfl (Or.inl rfl)

/-- Claim C6: with the output destination unset, or set to a path
whose directory does not exist (so appends to it fail), the run exits
1, never invokes the engine, and writes no named outputs. -/
theorem claim_C6 (w : World)
    (h : w.env.githubOutput = none ∨
      ∃ p, w.env.githubOutput = some p ∧ w.outputDirExists = false ∧ w.appendOk = false) :
    (runCheckModel w).exitCode = 1
    ∧ (runCheckModel w).invocations = 0
    ∧ (runCheckModel w).outputs = [] := by
  have hv : outputPathValid w = false := by
    unfold outputPathValid
    rcases h with hg | ⟨p, hg, hd, _⟩
    · rw [hg]
    · rw [hg, hd]
      simp
  have ht := tryBlock_invalid w hv
  have houts : ∀ n v, setOutputModel w n v = [] := by
    intro n v
    rcases h with hg | ⟨p, hg, _, ha⟩
    · exact setOutputModel_unset w hg n v
    · exact setOutputModel_noappend w p hg ha n v
  cases hw : w.writeOk with
  | true =>
    rw [runCheckModel_writeOk w hw, ht]
    refine ⟨rfl, rfl, ?_⟩
    dsimp only
    simp only [houts]
    rfl
  | false =>
    rw [runCheckModel_writeFail w hw, ht]
    refine ⟨rfl, rfl, ?_⟩
    dsimp only
    simp only [houts]
    rfl

/-- Witness for C6 at a run with `GITHUB_OUTPUT` unset. -/
theorem claim_C6_witness :
    (runCheckModel wNoOutput).exitCode = 1
    ∧ (runCheckModel wNoOutput).invocations = 0
    ∧ (runCheckModel wNoOutput).outputs = [] :=
  claim_C6 wNoOutput (Or.inl rfl)

/-- Claim C10: when the comment-body file write fails, the
`error_count` and `warning_count` outputs are never emitted — every
emitted output is named `comment_body_file` or `fallback_comment_body`. -/
theorem claim_C10 (w : World) (hw : w.writeOk = false) :
    (∀ v, ("error_count", v) ∉ (runCheckModel w).outputs
      ∧ ("warning_count", v) ∉ (runCheckModel w).outputs)
    ∧ ∀ x ∈ (runCheckModel w).outputs,
        x.1 = "comment_body_file" ∨ x.1 = "fallback_comment_body" := by
  have houts : (runCheckModel w).outputs =
      setOutputModel w "comment_body_file" "" ++
        setOutputModel w "fallback_comment_body" (fallbackBodyOf w) := by
    rw [runCheckModel_writeFail w hw]
  have hname : ∀ x ∈ (runCheckModel w).outputs,
      x.1 = "comment_body_file" ∨ x.1 = "fallback_comment_body" := by
    intro x hx
    rw [houts] at hx
    rcases List.mem_append.mp hx with hx | hx
    · exact Or.inl (setOutputModel_name hx)
    · exact Or.inr (setOutputModel_name hx)
  refine ⟨?_, hname⟩
  intro v
  constructor
  · intro hmem
    rcases hname _ hmem with h1 | h1
    · exact (by decide : ¬ ("error_count" : String) = "comment_body_file") h1
    · exact (by decide : ¬ ("error_count" : String) = "fallback_comment_body") h1
  · intro hmem
    rcases hname _ hmem with h1 | h1
    · exact (by decide : ¬ ("warning_count" : String) = "comment_body_file") h1
    · exact (by decide : ¬ ("warning_count" : String) = "fallback_comment_body") h1

/-- Witness for C10 at a concrete run whose file write fails. -/
theorem claim_C10_witness :
    (∀ v, ("error_count", v) ∉ (runCheckModel wWriteFail).outputs
      ∧ ("warning_count", v) ∉ (runCheckModel wWriteFail).outputs)
    ∧ ∀ x ∈ (runCheckModel wWriteFail).outputs,
        x.1 = "comment_body_file" ∨ x.1 = "fallback_comment_body" :=
  claim_C10 wWriteFail rfl

/-- Claim C2: the process exits 0 iff no failing condition holds
(errors found; warnings found with the fail-on-warnings flag set; a
fatal setup/processing error; a report-file write failure); and a run
with zero errors and at least one warning exits 0 with
`FAIL_ON_WARNINGS` unset and 1 with it set to the literal `true`,
with identical report content in both cases. -/
theorem claim_C2 :
    (∀ w : World, (runCheckModel w).exitCode = 0 ↔ specFailingCondition w = false)
    ∧ (∀ (w : World) (offs : List Offense),
        outputPathValid w = true → w.typeofThemeCheckRun = "function" →
        w.engine = .ok (some offs) → w.writeOk = true →
        (errorOffenses offs).length = 0 → 0 < (warningOffenses offs).length →
        w.env.failOnWarnings = none →
        (runCheckModel w).exitCode = 0
        ∧ (runCheckModel (withFailOnWarnings w (some "true"))).exitCode = 1
        ∧ (runCheckModel (withFailOnWarnings w (some "true"))).finalCommentBody =
            (runCheckModel w).finalCommentBody) := by
  constructor
  · intro w
    cases hw : w.writeOk with
    | false =>
      rw [runCheckModel_writeFail w hw]
      simp [specFailingCondition, hw]
    | true =>
      rw [runCheckModel_writeOk w hw]
      by_cases hv : outputPathValid w = true
      · by_cases hf : w.typeofThemeCheckRun = "function"
        · cases hen : w.engine with
          | raises msg =>
            rw [tryBlock_raises w msg hv hf hen]
            simp [specFailingCondition, fatalErrorOccurred, failBlock,
              runCheckModel_writeOk w hw, tryBlock_raises w msg hv hf hen, hen, hw]
          | ok oos =>
            cases oos with
            | none =>
              rw [tryBlock_shape w hv hf hen]
              simp [specFailingCondition, fatalErrorOccurred, failBlock,
                runCheckModel_writeOk w hw, tryBlock_shape w hv hf hen, hen, hw]
            | some offs =>
              rw [tryBlock_success w offs hv hf hen]
              simp only [specFailingCondition, fatalErrorOccurred,
                runCheckModel_writeOk w hw, tryBlock_success w offs hv hf hen,
                hv, hf, hen, hw]
              by_cases he0 : 0 < (errorOffenses offs).length <;>
                by_cases hw1 : 0 < (warningOffenses offs).length <;>
                  cases hf1 : w.failOnWarningsVal <;>
                    simp [he0, hw1, hf1]
        · have hv2 : outputPathValid w = true := hv
          rw [tryBlock_badfn w hv2 hf]
          simp [specFailingCondition, fatalErrorOccurred, failBlock,
            runCheckModel_writeOk w hw, tryBlock_badfn w hv2 hf, hf, hw]
      · have hv2 : outputPathValid w = false := by
          cases h2 : outputPathValid w with
          | false => rfl
          | true => exact absurd h2 hv
        rw [tryBlock_invalid w hv2]
        simp [specFailingCondition, fatalErrorOccurred, failBlock,
          runCheckModel_writeOk w hw, tryBlock_invalid w hv2, hv2, hw]
  · intro w offs hv hf hen hw he0 hw1 hnone
    have hv' : outputPathValid (withFailOnWarnings w (some "true")) = true := hv
    have hf' : (withFailOnWarnings w (some "true")).typeofThemeCheckRun = "function" := hf
    have hen' : (withFailOnWarnings w (some "true")).engine = .ok (some offs) := hen
    have hw' : (withFailOnWarnings w (some "true")).writeOk = true := hw
    have hfw0 : w.failOnWarningsVal = false := by
      unfold World.failOnWarningsVal
      rw [hnone]
      rfl
    have hfw1 : (withFailOnWarnings w (some "true")).failOnWarningsVal = true := rfl
    refine ⟨?_, ?_, ?_⟩
    · rw [runCheckModel_writeOk w hw, tryBlock_success w offs hv hf hen]
      simp [he0, hfw0]
    · rw [runCheckModel_writeOk (withFailOnWarnings w (some "true")) hw',
        tryBlock_success (withFailOnWarnings w (some "true")) offs hv' hf' hen']
      simp [he0, hfw1, hw1]
    · rw [runCheckModel_writeOk w hw,
        runCheckModel_writeOk (withFailOnWarnings w (some "true")) hw']
      dsimp only
      unfold finalCommentBodyOf
      rw [tryBlock_success w offs hv hf hen,
        tryBlock_success (withFailOnWarnings w (some "true")) offs hv' hf' hen']
      rfl

/-- Witness for C2 at a run producing exactly one warning (each
hypothesis of the second component discharged concretely). -/
theorem claim_C2_witness :
    (runCheckModel wWarnOnly).exitCode = 0
    ∧ (runCheckModel (withFailOnWarnings wWarnOnly (some "true"))).exitCode = 1
    ∧ (runCheckModel (withFailOnWarnings wWarnOnly (some "true"))).finalCommentBody =
        (runCheckModel wWarnOnly).finalCommentBody :=
  claim_C2.2 wWarnOnly [oWarn] (by decide) rfl rfl rfl (by decide) (by decide) rfl

end ThemeCheck
